import Mathlib

/-!
Verification of the Home Assistant client
(`zapmyco/integrations/home_assistant/main.py` and `models.py`).

The client's mutable state (`HomeAssistantClient.__init__`) is embedded as the
structure `Client`; each method that the claims mention is embedded as a pure
function on `Client`, with external interactions (HTTP responses, WebSocket
frames) passed in as explicit arguments.  Python `dict`s are embedded as
association lists with Python's update-in-place-or-append insertion order.
-/

set_option autoImplicit false

namespace HA

/-- Atomic JSON-ish values: an abstraction of the arbitrary (`Any`) payload
values that appear in attribute maps, raw registry items and command results.
No claim inspects the inside of such a value, so the exact constructors only
need to provide a decidable equality. -/
inductive JVal where
  | null
  | bool (b : Bool)
  | num (n : Int)
  | str (s : String)
deriving DecidableEq, Repr

/-- Lookup in an association list (Python `d[k]` / `k in d`). -/
def alookup {κ α : Type} [DecidableEq κ] : List (κ × α) → κ → Option α
  | [], _ => none
  | (k, v) :: rest, key => if k = key then some v else alookup rest key

/-- Python `d[k] = v`: update the value in place if the key is present,
otherwise append the new binding at the end (insertion order preserved). -/
def ainsert {κ α : Type} [DecidableEq κ] : List (κ × α) → κ → α → List (κ × α)
  | [], key, val => [(key, val)]
  | (k, v) :: rest, key, val =>
      if k = key then (k, val) :: rest else (k, v) :: ainsert rest key val

/-- Python `d.pop(k, None)` / `del d[k]`: remove the binding for a key. -/
def aerase {κ α : Type} [DecidableEq κ] : List (κ × α) → κ → List (κ × α)
  | [], _ => []
  | (k, v) :: rest, key => if k = key then rest else (k, v) :: aerase rest key

theorem alookup_ainsert {κ α : Type} [DecidableEq κ] (l : List (κ × α))
    (k : κ) (v : α) (k' : κ) :
    alookup (ainsert l k v) k' = if k' = k then some v else alookup l k' := by
  induction l with
  | nil =>
      by_cases h : k' = k
      · simp [ainsert, alookup, h]
      · have h2 : ¬ k = k' := fun he => h he.symm
        simp [ainsert, alookup, h, h2]
  | cons p rest ih =>
      obtain ⟨k₀, v₀⟩ := p
      by_cases h0 : k₀ = k
      · subst h0
        by_cases h : k' = k₀
        · subst h
          simp [ainsert, alookup]
        · have h2 : ¬ k₀ = k' := fun he => h he.symm
          simp [ainsert, alookup, h, h2]
      · by_cases h : k' = k₀
        · subst h
          simp [ainsert, alookup, h0]
        · have h2 : ¬ k₀ = k' := fun he => h he.symm
          simp [ainsert, alookup, h0, h, h2, ih]

theorem alookup_ainsert_self {κ α : Type} [DecidableEq κ] (l : List (κ × α))
    (k : κ) (v : α) : alookup (ainsert l k v) k = some v := by
  simp [alookup_ainsert]

theorem alookup_ainsert_ne {κ α : Type} [DecidableEq κ] (l : List (κ × α))
    (k : κ) (v : α) (k' : κ) (h : k' ≠ k) :
    alookup (ainsert l k v) k' = alookup l k' := by
  simp [alookup_ainsert, h]

/-- Removal of one key from a plain key list (the key set of a Python dict
after `pop`). -/
def lerase {κ : Type} [DecidableEq κ] : List κ → κ → List κ
  | [], _ => []
  | k :: rest, key => if k = key then rest else k :: lerase rest key

theorem lerase_of_not_mem {κ : Type} [DecidableEq κ] {l : List κ} {i : κ}
    (h : i ∉ l) : lerase l i = l := by
  induction l with
  | nil => rfl
  | cons k rest ih =>
      have hk : k ≠ i := fun he => h (he ▸ List.mem_cons_self k rest)
      have hr : i ∉ rest := fun hm => h (List.mem_cons_of_mem k hm)
      simp [lerase, hk, ih hr]

theorem mem_of_mem_lerase {κ : Type} [DecidableEq κ] {l : List κ} {i j : κ}
    (h : j ∈ lerase l i) : j ∈ l := by
  induction l with
  | nil => simp [lerase] at h
  | cons k rest ih =>
      by_cases hk : k = i
      · simp [lerase, hk] at h
        exact List.mem_cons_of_mem k h
      · simp [lerase, hk] at h
        rcases h with h | h
        · exact h ▸ List.mem_cons_self k rest
        · exact List.mem_cons_of_mem k (ih h)

theorem not_mem_lerase_self {κ : Type} [DecidableEq κ] {l : List κ} {i : κ}
    (h : l.Nodup) : i ∉ lerase l i := by
  induction l with
  | nil => simp [lerase]
  | cons k rest ih =>
      rcases List.nodup_cons.mp h with ⟨hk, hrest⟩
      by_cases hki : k = i
      · subst hki
        simpa [lerase] using hk
      · intro hm
        simp [lerase, hki] at hm
        rcases hm with hm | hm
        · exact hki hm.symm
        · exact ih hrest hm

theorem nodup_lerase {κ : Type} [DecidableEq κ] {l : List κ} {i : κ}
    (h : l.Nodup) : (lerase l i).Nodup := by
  induction l with
  | nil => simp [lerase]
  | cons k rest ih =>
      rcases List.nodup_cons.mp h with ⟨hk, hrest⟩
      by_cases hki : k = i
      · simpa [lerase, hki] using hrest
      · have : (k :: lerase rest i).Nodup :=
          List.nodup_cons.mpr ⟨fun hm => hk (mem_of_mem_lerase hm), ih hrest⟩
        simpa [lerase, hki] using this

/-! ## Data model (`models.py`) -/

/-- `EntityState` dataclass (`models.py` lines 113-139).  Timestamps are kept
as their ISO-8601 source strings: `datetime.fromisoformat` is injective on the
well-formed strings that appear here, so field-for-field equality is preserved.
Both construction sites in the client supply every field, so the dataclass
defaults are not modelled. -/
structure EntityState where
  entity_id : String
  state : JVal
  attributes : List (String × JVal)
  last_changed : String
  last_updated : String
  context_id : String
  context_parent_id : Option String
  context_user_id : Option String
deriving DecidableEq, Repr

/-- The raw per-entity JSON object received in a `state_changed` event's
`old_state`/`new_state` or a REST `/api/states/...` body: exactly the keys the
client reads in `_handle_event` and `get_state`. -/
structure StatePayload where
  entity_id : String
  state : JVal
  attributes : List (String × JVal)
  last_changed : String
  last_updated : String
  context_id : String
  context_parent_id : Option String
  context_user_id : Option String
deriving DecidableEq, Repr

/-- The `EntityState(...)` construction performed at `main.py` lines 375-397,
580-589 and 622-631: every field is taken from the raw payload. -/
def parseEntityState (p : StatePayload) : EntityState :=
  { entity_id := p.entity_id
    state := p.state
    attributes := p.attributes
    last_changed := p.last_changed
    last_updated := p.last_updated
    context_id := p.context_id
    context_parent_id := p.context_parent_id
    context_user_id := p.context_user_id }

/-- A raw item of `config/entity_registry/list`: `get_entity_registry` only
reads `item["entity_id"]` and stores the whole item. -/
structure EntityItem where
  entity_id : String
  payload : JVal
deriving DecidableEq, Repr

/-- A raw item of `config/area_registry/list`: `get_area_registry` only reads
`item["area_id"]` and stores the whole item. -/
structure AreaItem where
  area_id : String
  payload : JVal
deriving DecidableEq, Repr

/-- `DeviceRegistry` dataclass (`models.py` lines 165-182); the Python `set`s
of tuples are modelled as lists. -/
structure DeviceRegistry where
  id : String
  name : Option String
  name_by_user : Option String
  identifiers : List (List String)
  connections : List (List String)
  manufacturer : Option String
  model : Option String
  sw_version : Option String
  hw_version : Option String
  via_device_id : Option String
  area_id : Option String
  disabled_by : Option String
  entry_type : Option String
  configuration_url : Option String
deriving DecidableEq, Repr

/-- A raw item of `GET /api/config/device_registry/list`, with the keys read
at `main.py` lines 721-736 (`id` is required, the rest default to `None`/empty
via `.get`). -/
structure RawDevice where
  id : String
  name : Option String
  name_by_user : Option String
  identifiers : List (List String)
  connections : List (List String)
  manufacturer : Option String
  model : Option String
  sw_version : Option String
  hw_version : Option String
  via_device_id : Option String
  area_id : Option String
  disabled_by : Option String
  entry_type : Option String
  configuration_url : Option String
deriving DecidableEq, Repr

/-- The `DeviceRegistry(...)` construction at `main.py` lines 721-736. -/
def parseDevice (r : RawDevice) : DeviceRegistry :=
  { id := r.id
    name := r.name
    name_by_user := r.name_by_user
    identifiers := r.identifiers
    connections := r.connections
    manufacturer := r.manufacturer
    model := r.model
    sw_version := r.sw_version
    hw_version := r.hw_version
    via_device_id := r.via_device_id
    area_id := r.area_id
    disabled_by := r.disabled_by
    entry_type := r.entry_type
    configuration_url := r.configuration_url }

/-- `Service` dataclass (`models.py` lines 194-208). -/
structure Service where
  domain : String
  service : String
  name : Option String
  description : Option String
  fields : List (String × JVal)
  target : Option JVal
deriving DecidableEq, Repr

/-- `Service.service_id` property: `f"{domain}.{service}"`. -/
def Service.service_id (s : Service) : String := s.domain ++ "." ++ s.service

/-- The value of one service inside a `/api/services` domain item. -/
structure RawService where
  name : Option String
  description : Option String
  fields : List (String × JVal)
  target : Option JVal
deriving DecidableEq, Repr

/-- One domain item of the `/api/services` response: a `domain` key and a
`services` mapping. -/
structure RawDomain where
  domain : String
  services : List (String × RawService)
deriving DecidableEq, Repr

/-- The `Service(...)` construction at `main.py` lines 796-803. -/
def mkService (domain : String) (p : String × RawService) : Service :=
  { domain := domain
    service := p.1
    name := p.2.name
    description := p.2.description
    fields := p.2.fields
    target := p.2.target }

/-! ## Error taxonomy (`main.py` lines 33-60) and futures -/

/-- The client's exception taxonomy.  `request` carries the status code and
response body that the source formats into the `RequestError` message
(`f"请求失败: {resp.status} - {error_text}"`). -/
inductive HAErr where
  | authentication (msg : String)
  | connection (msg : String)
  | request (status : Nat) (body : String)
  | websocket (msg : String)
deriving DecidableEq, Repr

/-- Settlement state of one `asyncio.Future` from `_ws_callbacks`.
`rejectedWS`/`rejectedConn` model `set_exception` with a `WebSocketError` /
`ConnectionError`; `cancelled` models `Future.cancel()`.  Every state other
than `pending` makes `future.done()` true.  The `rejectedConn` constructor is
part of the client's error taxonomy but is never produced by any of the code
paths modelled here: the only `set_exception` in the source uses a
`WebSocketError` (`main.py` line 335), and `disconnect` only ever calls
`future.cancel()` (`main.py` line 181). -/
inductive FutureState where
  | pending
  | resolved (result : Option JVal)
  | rejectedWS (msg : String)
  | rejectedConn (msg : String)
  | cancelled
deriving DecidableEq, Repr

/-- `future.done()`. -/
def FutureState.isDone : FutureState → Bool
  | FutureState.pending => false
  | _ => true

/-- A server response frame that carries an `id` (`_websocket_loop` line 307
dispatches any such frame to `_handle_response`): the fields `_handle_response`
reads, with `msg.get`-style optionality. -/
structure RespMsg where
  id : Nat
  success : Option Bool
  result : Option JVal
  errorMessage : Option String
deriving DecidableEq, Repr

/-! ## Client state (`HomeAssistantClient.__init__`, `main.py` lines 75-103) -/

/-- The mutable state of a `HomeAssistantClient`.

`pending` is the key set of the `_ws_callbacks` dict and `futures` records, by
request id, the settlement state of every future created in the current
connection generation (a popped entry's future lives on with its awaiting
caller, which is why the two are kept separately).  `gen_subs` is a history
variable: the list of event types for which a `subscribe_events` command has
been sent on the wire during the current connection generation, in send order.
The remaining fields map one-to-one onto `__init__`'s attributes, with
`session_open` / `ws_open` / `ws_task` standing for "`_session` is usable",
"`_ws_connection` is open" and "a read-loop task is running". -/
structure Client where
  session_open : Bool
  ws_open : Bool
  ws_task : Bool
  ws_id : Nat
  pending : List Nat
  futures : List (Nat × FutureState)
  event_callbacks : List (String × List Nat)
  gen_subs : List String
  ws_connected : Bool
  reconnect_interval : Nat
  ws_shutdown : Bool
  states_cache : List (String × EntityState)
  registry_cache : List (String × EntityItem)
  device_cache : List (String × DeviceRegistry)
  area_cache : List (String × AreaItem)
  service_cache : List (String × Service)
deriving DecidableEq, Repr

/-! ## Request correlator (`_send_websocket_command`, `_handle_response`) -/

/-- The registration half of `_send_websocket_command` (`main.py` lines
475-496): the not-connected guard, `self._ws_id += 1`, creation of a fresh
pending future under the new id, and the send.  Returns the allocated id. -/
def sendRegister (c : Client) : Except HAErr (Client × Nat) :=
  if !c.ws_connected || !c.ws_open then
    Except.error (HAErr.connection "WebSocket 未连接")
  else
    let msgId := c.ws_id + 1
    Except.ok
      ({ c with
          ws_id := msgId
          pending := if msgId ∈ c.pending then c.pending else c.pending ++ [msgId]
          futures := ainsert c.futures msgId FutureState.pending }, msgId)

/-- Settle the future registered under id `i` into state `s`, guarded by
`if not future.done()` (settling an already-done future is a no-op, as are
`cancel()` and the guarded `set_exception` in the source). -/
def settleAt (futs : List (Nat × FutureState)) (i : Nat) (s : FutureState) :
    List (Nat × FutureState) :=
  match alookup futs i with
  | some FutureState.pending => ainsert futs i s
  | _ => futs

/-- Settle every future whose id is listed into state `s`. -/
def settleAllAt (futs : List (Nat × FutureState)) (ids : List Nat)
    (s : FutureState) : List (Nat × FutureState) :=
  ids.foldl (fun fs i => settleAt fs i s) futs

/-- `future.cancel()` for the future registered under id `i` (a no-op when the
future is already done). -/
def settleCancelAt (futs : List (Nat × FutureState)) (i : Nat) :
    List (Nat × FutureState) :=
  settleAt futs i FutureState.cancelled

/-- The timeout branch of `_send_websocket_command` (`main.py` lines 498-503):
`asyncio.wait_for` cancels the awaited future when the timeout fires, and the
`except asyncio.TimeoutError` handler pops the pending entry
(`self._ws_callbacks.pop(msg_id, None)`) before re-raising. -/
def timeoutFire (c : Client) (msgId : Nat) : Client :=
  { c with
      futures := settleCancelAt c.futures msgId
      pending := lerase c.pending msgId }

/-- The `WebSocketError` message built at `main.py` lines 450-453 from
`msg.get("error", {}).get("message", "Unknown error")`. -/
def wsFailureMsg (m : RespMsg) : String :=
  "WebSocket 请求失败: " ++ m.errorMessage.getD "Unknown error"

/-- The settlement performed on the popped future (`main.py` lines 446-454):
when it is not yet done, resolve it with `msg.get("result")` if
`msg.get("success", True)`, otherwise reject it with a `WebSocketError`. -/
def settleFromMsg (futs : List (Nat × FutureState)) (m : RespMsg) :
    List (Nat × FutureState) :=
  match alookup futs m.id with
  | some FutureState.pending =>
      if m.success.getD true then
        ainsert futs m.id (FutureState.resolved m.result)
      else
        ainsert futs m.id (FutureState.rejectedWS (wsFailureMsg m))
  | _ => futs

/-- `_handle_response` (`main.py` lines 436-454): if the frame's id has a
pending entry, pop it and settle the popped future; otherwise do nothing at
all. -/
def handleResponse (c : Client) (m : RespMsg) : Client :=
  if m.id ∈ c.pending then
    { c with
        pending := lerase c.pending m.id
        futures := settleFromMsg c.futures m }
  else c

/-- Reject every future whose id is still in the pending map with a
`WebSocketError(msg)` (guarded by `if not future.done()`). -/
def rejectAllPending (futs : List (Nat × FutureState)) (ids : List Nat)
    (msg : String) : List (Nat × FutureState) :=
  settleAllAt futs ids (FutureState.rejectedWS msg)

/-- Cancel every future whose id is still in the pending map. -/
def cancelAllPending (futs : List (Nat × FutureState)) (ids : List Nat) :
    List (Nat × FutureState) :=
  settleAllAt futs ids FutureState.cancelled

/-- The cleanup half of `_handle_websocket_disconnect` (`main.py` lines
328-336): mark disconnected, reject every still-pending future with
`WebSocketError("WebSocket 连接已断开")`, clear the pending map. -/
def wsDisconnectCleanup (c : Client) : Client :=
  { c with
      ws_connected := false
      futures := rejectAllPending c.futures c.pending "WebSocket 连接已断开"
      pending := [] }

/-- `disconnect` (`main.py` lines 159-188): set the shutdown flag, cancel and
await the read-loop task, close the WebSocket, cancel every not-yet-done
pending future (`future.cancel()`), clear the pending map and the event
callback registry, and close the REST session. -/
def disconnect (c : Client) : Client :=
  { c with
      ws_shutdown := true
      ws_task := false
      ws_open := false
      ws_connected := false
      futures := cancelAllPending c.futures c.pending
      pending := []
      event_callbacks := []
      session_open := false }

/-! ## REST gateway (`_api_call`, `main.py` lines 190-233) -/

/-- The externally observable outcome of one HTTP exchange: a response with a
status, body text and parsed JSON body, an `asyncio.TimeoutError`, or an
`aiohttp.ClientError`. -/
inductive RestOutcome where
  | response (status : Nat) (body : String) (json : JVal)
  | timeoutExpired
  | clientFailure (msg : String)
deriving DecidableEq, Repr

/-- `_api_call`: closed-session guard, then `401 → AuthenticationError`,
`status ≥ 400 → RequestError`, `204 → None`, otherwise the parsed JSON body;
`asyncio.TimeoutError`/`aiohttp.ClientError → ConnectionError`. -/
def api_call (sessionOpen : Bool) (url : String) (o : RestOutcome) :
    Except HAErr (Option JVal) :=
  if !sessionOpen then Except.error (HAErr.connection "未连接到 Home Assistant")
  else
    match o with
    | RestOutcome.response status body j =>
        if status = 401 then Except.error (HAErr.authentication "认证失败")
        else if 400 ≤ status then Except.error (HAErr.request status body)
        else if status = 204 then Except.ok none
        else Except.ok (some j)
    | RestOutcome.timeoutExpired =>
        Except.error (HAErr.connection ("请求超时: " ++ url))
    | RestOutcome.clientFailure m =>
        Except.error (HAErr.connection ("请求错误: " ++ m))

/-- The message `str(e)` of a `RequestError`
(`f"请求失败: {resp.status} - {error_text}"`). -/
def requestErrorStr (status : Nat) (body : String) : String :=
  "请求失败: " ++ toString status ++ " - " ++ body

/-- Python `"404" in s`. -/
def has404 (s : String) : Bool := (s.splitOn "404").length > 1

/-! ## Registry and service fetches (`main.py` lines 645-811) -/

/-- The per-item cache update loop shared by the four fetch operations:
`cache[key(item)] = value(item)` for each fetched item in order. -/
def upsertAll {α β : Type} (key : β → String) (val : β → α)
    (d : List (String × α)) (raw : List β) : List (String × α) :=
  raw.foldl (fun acc it => ainsert acc (key it) (val it)) d

/-- The value the last snapshot item with a given key contributes (used to
specify `upsertAll`). -/
def lastVal {α β : Type} (key : β → String) (val : β → α) :
    List β → String → Option α
  | [], _ => none
  | it :: rest, k =>
      match lastVal key val rest k with
      | some v => some v
      | none => if key it = k then some (val it) else none

/-- `get_entity_registry` (`main.py` lines 645-701): fetch the raw item list
over WebSocket (passed here as `raw`), store every item into
`_registry_cache` under its `entity_id`, and return `self._registry_cache`
itself — the whole mapping, not the fetched list. -/
def get_entity_registry (c : Client) (raw : List EntityItem) :
    Client × List (String × EntityItem) :=
  let cache := upsertAll EntityItem.entity_id id c.registry_cache raw
  ({ c with registry_cache := cache }, cache)

/-- `get_area_registry` (`main.py` lines 746-776): like the entity registry,
keyed by `area_id`, returning `self._area_cache` itself. -/
def get_area_registry (c : Client) (raw : List AreaItem) :
    Client × List (String × AreaItem) :=
  let cache := upsertAll AreaItem.area_id id c.area_cache raw
  ({ c with area_cache := cache }, cache)

/-- `get_device_registry` (`main.py` lines 703-744): parse each fetched item
into a `DeviceRegistry`, store it into `_device_cache` under its `id`, and
return the freshly built list. -/
def get_device_registry (c : Client) (raw : List RawDevice) :
    Client × List DeviceRegistry :=
  let regs := raw.map parseDevice
  ({ c with device_cache := upsertAll DeviceRegistry.id id c.device_cache regs },
   regs)

/-- The nested domain/service flattening loop of `get_services`
(`main.py` lines 793-805), in iteration order. -/
def servicesOf (raw : List RawDomain) : List Service :=
  raw.foldl (fun acc d => acc ++ d.services.map (mkService d.domain)) []

/-- `get_services` (`main.py` lines 778-811): build a `Service` per
domain/service pair, store each into `_service_cache` under
`service.service_id`, and return the freshly built list. -/
def get_services (c : Client) (raw : List RawDomain) : Client × List Service :=
  let svcs := servicesOf raw
  ({ c with service_cache := upsertAll Service.service_id id c.service_cache svcs },
   svcs)

/-! ## Cached reads (`main.py` lines 1805-1848)

Each `get_cached_*` returns `cache.copy()`: a new top-level dict holding the
same entries, so its contents equal the cache contents at call time (the
object-identity side of `.copy()` is modelled separately below for C7). -/

/-- `get_cached_states`: returns `self._states_cache.copy()`. -/
def get_cached_states (c : Client) : List (String × EntityState) :=
  c.states_cache

/-- `get_cached_registry`: returns `self._registry_cache.copy()`. -/
def get_cached_registry (c : Client) : List (String × EntityItem) :=
  c.registry_cache

/-- `get_cached_devices`: returns `self._device_cache.copy()`. -/
def get_cached_devices (c : Client) : List (String × DeviceRegistry) :=
  c.device_cache

/-- `get_cached_areas`: returns `self._area_cache.copy()`. -/
def get_cached_areas (c : Client) : List (String × AreaItem) :=
  c.area_cache

/-- `get_cached_services`: returns `self._service_cache.copy()`. -/
def get_cached_services (c : Client) : List (String × Service) :=
  c.service_cache

/-! ## Event dispatch (`_handle_event`, `main.py` lines 357-434) -/

/-- The `data` field of a `state_changed` event frame. -/
structure StateChangedData where
  entity_id : String
  old_state : Option StatePayload
  new_state : Option StatePayload
deriving DecidableEq, Repr

/-- An inbound `event` frame: either a `state_changed` event or any other
event type with opaque data. -/
inductive EventPayload where
  | stateChanged (d : StateChangedData)
  | other (event_type : String) (data : JVal)
deriving DecidableEq, Repr

/-- The `event` object of an inbound frame (`msg["event"]`). -/
structure EventMsg where
  payload : EventPayload
  event_id : JVal
  time_fired : String
deriving DecidableEq, Repr

/-- The callbacks `_dispatch_event` would invoke for an event type, in
registration order (`main.py` lines 426-427). -/
def dispatchTargets (c : Client) (event_type : String) : List Nat :=
  (alookup c.event_callbacks event_type).getD []

/-- The client-state effect of `_handle_event`: for a `state_changed` frame
whose `new_state` is present, overwrite the states-cache entry for the frame's
`entity_id` with the parsed new state; in every other case the client state is
untouched (`_dispatch_event` only invokes subscriber callbacks, catching their
exceptions, and mutates no client state). -/
def handle_event (c : Client) (m : EventMsg) : Client :=
  match m.payload with
  | EventPayload.stateChanged d =>
      match d.new_state with
      | some p =>
          { c with states_cache := ainsert c.states_cache d.entity_id (parseEntityState p) }
      | none => c
  | EventPayload.other _ _ => c

/-! ## `get_state` (`main.py` lines 598-643) -/

/-- The outcome of the REST leg of `get_state`: a fetched item (`none` models
a falsy body, `main.py` line 619) or a raised error. -/
inductive FetchStates where
  | item (p : Option StatePayload)
  | failure (e : HAErr)
deriving DecidableEq, Repr

/-- `get_state`: serve from `_states_cache` when the entity id is present (no
REST call); otherwise fetch, parse, populate the cache and return the parsed
state; a `RequestError` whose message contains `"404"` yields `none`, any
other error propagates.  The returned `Bool` records whether a REST call was
made. -/
def get_state (c : Client) (entity_id : String) (fetch : FetchStates) :
    Except HAErr (Option EntityState) × Client × Bool :=
  match alookup c.states_cache entity_id with
  | some st => (Except.ok (some st), c, false)
  | none =>
      match fetch with
      | FetchStates.item none => (Except.ok none, c, true)
      | FetchStates.item (some p) =>
          let st := parseEntityState p
          (Except.ok (some st),
           { c with states_cache := ainsert c.states_cache entity_id st }, true)
      | FetchStates.failure (HAErr.request status body) =>
          if has404 (requestErrorStr status body) then (Except.ok none, c, true)
          else (Except.error (HAErr.request status body), c, true)
      | FetchStates.failure err => (Except.error err, c, true)

/-! ## Connection management (`connect`, `_connect_websocket`,
`_handle_websocket_disconnect`) -/

/-- The externally observable course of one `_connect_websocket` attempt. -/
inductive Handshake where
  | wsConnectFail (msg : String)
  | unexpectedFirst (t : String)
  | authInvalid (message : Option String)
  | authOkSubscribeFail (msg : String)
  | authOk
deriving DecidableEq, Repr

/-- The external interactions one `connect()` call runs into: the `GET /api/`
probe outcome and the WebSocket handshake course. -/
structure ConnectScript where
  probe : RestOutcome
  handshake : Handshake
deriving DecidableEq, Repr

/-- The post-auth mutations of `_connect_websocket` (`main.py` lines
251-282): socket open, `_ws_id = 0`, connected, shutdown flag cleared,
read-loop task started, backoff reset.  A new connection generation begins,
so the `gen_subs` history restarts empty.  Note the code does **not** clear
`_ws_callbacks` here. -/
def postAuth (c : Client) : Client :=
  { c with
      ws_open := true
      ws_id := 0
      ws_connected := true
      ws_shutdown := false
      ws_task := true
      reconnect_interval := 1
      gen_subs := [] }

/-- The `subscribe_events(EventType.STATE_CHANGED)` round trip performed at
`main.py` line 285: send the subscribe command (recording it in `gen_subs`)
and settle its response successfully.  No callback argument is passed, so the
callback registry is untouched. -/
def subscribeStateChanged (c : Client) : Client :=
  match sendRegister c with
  | Except.error _ => c
  | Except.ok (c', i) =>
      let c'' := { c' with gen_subs := c'.gen_subs ++ ["state_changed"] }
      handleResponse c''
        { id := i, success := some true, result := none, errorMessage := none }

/-- The same round trip when the server answers the subscribe command with
`success: false`: the pending entry is settled with a `WebSocketError`, which
`subscribe_events` re-wraps and raises. -/
def subscribeStateChangedFail (c : Client) (m : String) : Client :=
  match sendRegister c with
  | Except.error _ => c
  | Except.ok (c', i) =>
      let c'' := { c' with gen_subs := c'.gen_subs ++ ["state_changed"] }
      handleResponse c''
        { id := i, success := some false, result := none, errorMessage := some m }

/-- `_connect_websocket` (`main.py` lines 235-288).  Python mutations made
before an exception propagates are not rolled back, so the error case carries
the mutated client state alongside the raised error. -/
def connectWebsocket (c : Client) (h : Handshake) :
    Except (HAErr × Client) Client :=
  if !c.session_open then
    Except.error (HAErr.connection "未连接到 Home Assistant", c)
  else
    match h with
    | Handshake.wsConnectFail m =>
        Except.error (HAErr.connection ("WebSocket 连接错误: " ++ m), c)
    | Handshake.unexpectedFirst t =>
        Except.error (HAErr.websocket ("意外的初始消息: " ++ t),
          { c with ws_open := true })
    | Handshake.authInvalid msg =>
        Except.error
          (HAErr.authentication ("认证失败: " ++ msg.getD "Unknown error"),
           { c with ws_open := true })
    | Handshake.authOkSubscribeFail m =>
        Except.error (HAErr.websocket ("订阅事件失败: " ++ m),
          subscribeStateChangedFail (postAuth c) m)
    | Handshake.authOk => Except.ok (subscribeStateChanged (postAuth c))

/-- The session-creation step at the top of `connect` (`main.py` lines
124-137). -/
def ensureSession (c : Client) : Client :=
  if !c.session_open then { c with session_open := true } else c

/-- `connect` (`main.py` lines 114-157): open the session, probe `GET /api/`,
then open the WebSocket; every failure is caught, answered by
`await self.disconnect()` and `return False` — `connect` is a total function
into `Bool × Client` and can never raise. -/
def connect (c : Client) (s : ConnectScript) : Bool × Client :=
  let c1 := ensureSession c
  match api_call c1.session_open "/api/" s.probe with
  | Except.error _ => (false, disconnect c1)
  | Except.ok _ =>
      match connectWebsocket c1 s.handshake with
      | Except.error (_, c2) => (false, disconnect c2)
      | Except.ok c2 => (true, c2)

/-- One pass of `_handle_websocket_disconnect` (`main.py` lines 328-355)
whose reconnect attempt succeeds: reject the pending requests, stop if a
shutdown was requested, otherwise back off (doubling, capped at
`_ws_max_reconnect_interval = 300`) and re-run `_connect_websocket`, which on
success resets the backoff interval and re-subscribes only
`EventType.STATE_CHANGED`. -/
def reconnectOnce (c : Client) : Client :=
  let c1 := wsDisconnectCleanup c
  if c1.ws_shutdown then c1
  else
    let c2 := { c1 with reconnect_interval := min (c1.reconnect_interval * 2) 300 }
    match connectWebsocket c2 Handshake.authOk with
    | Except.error (_, c3) => c3
    | Except.ok c3 => c3

/-! ## Object identity of cache reads (for C7)

Python returns dicts by reference, so whether a reader can corrupt a cache
depends on object identity, not on contents.  This small heap model makes
that explicit: every dict is an object in a heap addressed by a `Nat`
reference, a cached section is a reference held by the client, `dict.copy()`
allocates a fresh object with the same entries, and returning
`self._registry_cache` returns the held reference itself.  Entry values are
collapsed to `JVal` (a registry item is represented by its payload); only
top-level identity matters here. -/

/-- A dict object: its top-level entries. -/
abbrev HDict := List (String × JVal)

/-- A heap of dict objects addressed by `Nat` references. -/
structure Heap where
  objs : List (Nat × HDict)
  next : Nat
deriving DecidableEq, Repr

/-- Read the object behind a reference. -/
def Heap.get (h : Heap) (r : Nat) : HDict := (alookup h.objs r).getD []

/-- Overwrite the object behind a reference (in-place dict mutation). -/
def Heap.set (h : Heap) (r : Nat) (d : HDict) : Heap :=
  { h with objs := ainsert h.objs r d }

/-- Allocate a fresh object. -/
def Heap.alloc (h : Heap) (d : HDict) : Heap × Nat :=
  ({ objs := ainsert h.objs h.next d, next := h.next + 1 }, h.next)

/-- The client's five cache attributes, as references into the heap. -/
structure ClientRefs where
  heap : Heap
  states_ref : Nat
  registry_ref : Nat
  device_ref : Nat
  area_ref : Nat
  service_ref : Nat
deriving DecidableEq, Repr

/-- Python `d.copy()`: a new top-level object holding the same entries (the
entry values themselves are shared, i.e. the copy is shallow). -/
def copyDict (c : ClientRefs) (r : Nat) : ClientRefs × Nat :=
  let p := c.heap.alloc (c.heap.get r)
  ({ c with heap := p.1 }, p.2)

/-- A caller mutating a dict it was handed: `d[k] = v` on the object behind
`r`. -/
def mutateInsert (c : ClientRefs) (r : Nat) (k : String) (v : JVal) : ClientRefs :=
  { c with heap := c.heap.set r (ainsert (c.heap.get r) k v) }

/-- Current contents of the states cache. -/
def cachedStatesH (c : ClientRefs) : HDict := c.heap.get c.states_ref

/-- Current contents of the entity-registry cache. -/
def cachedRegistryH (c : ClientRefs) : HDict := c.heap.get c.registry_ref

/-- Current contents of the device cache. -/
def cachedDevicesH (c : ClientRefs) : HDict := c.heap.get c.device_ref

/-- Current contents of the area cache. -/
def cachedAreasH (c : ClientRefs) : HDict := c.heap.get c.area_ref

/-- Current contents of the service cache. -/
def cachedServicesH (c : ClientRefs) : HDict := c.heap.get c.service_ref

/-- `get_cached_states` (`main.py` line 1812): `return self._states_cache.copy()`. -/
def get_cached_states_ref (c : ClientRefs) : ClientRefs × Nat :=
  copyDict c c.states_ref

/-- `get_cached_registry` (`main.py` line 1821): `return self._registry_cache.copy()`. -/
def get_cached_registry_ref (c : ClientRefs) : ClientRefs × Nat :=
  copyDict c c.registry_ref

/-- `get_cached_devices` (`main.py` line 1830): `return self._device_cache.copy()`. -/
def get_cached_devices_ref (c : ClientRefs) : ClientRefs × Nat :=
  copyDict c c.device_ref

/-- `get_cached_areas` (`main.py` line 1839): `return self._area_cache.copy()`. -/
def get_cached_areas_ref (c : ClientRefs) : ClientRefs × Nat :=
  copyDict c c.area_ref

/-- `get_cached_services` (`main.py` line 1848): `return self._service_cache.copy()`. -/
def get_cached_services_ref (c : ClientRefs) : ClientRefs × Nat :=
  copyDict c c.service_ref

/-- `get_entity_registry` in the heap model (`main.py` lines 663-697): update
the cache dict in place and `return self._registry_cache` — the reference to
the internal cache object itself, with no copy. -/
def get_entity_registry_ref (c : ClientRefs) (raw : List EntityItem) :
    ClientRefs × Nat :=
  let d := upsertAll EntityItem.entity_id EntityItem.payload
    (c.heap.get c.registry_ref) raw
  ({ c with heap := c.heap.set c.registry_ref d }, c.registry_ref)

/-- `get_area_registry` in the heap model (`main.py` lines 763-772): likewise
returns `self._area_cache` itself. -/
def get_area_registry_ref (c : ClientRefs) (raw : List AreaItem) :
    ClientRefs × Nat :=
  let d := upsertAll AreaItem.area_id AreaItem.payload
    (c.heap.get c.area_ref) raw
  ({ c with heap := c.heap.set c.area_ref d }, c.area_ref)

/-- The cache-serving path of `get_state` (`main.py` lines 614-615) in the
heap model: `return self._states_cache[entity_id]` hands out the stored value
itself, with no copy. -/
def get_state_cache_hit (c : ClientRefs) (entity_id : String) : Option JVal :=
  alookup (c.heap.get c.states_ref) entity_id

/-! ## Supporting lemmas -/

theorem alookup_upsertAll {α β : Type} (key : β → String) (val : β → α)
    (raw : List β) (d : List (String × α)) (k : String) :
    alookup (upsertAll key val d raw) k =
      match lastVal key val raw k with
      | some v => some v
      | none => alookup d k := by
  induction raw generalizing d with
  | nil => rfl
  | cons it rest ih =>
      have hstep : upsertAll key val d (it :: rest)
          = upsertAll key val (ainsert d (key it) (val it)) rest := rfl
      rw [hstep, ih]
      cases h : lastVal key val rest k with
      | some v => simp [lastVal, h]
      | none =>
          by_cases hk : key it = k
          · simp [lastVal, h, hk, alookup_ainsert]
          · have hk' : ¬ k = key it := fun he => hk he.symm
            simp [lastVal, h, hk, alookup_ainsert, hk']

theorem alookup_settleAt_ne (futs : List (Nat × FutureState)) (j i : Nat)
    (s : FutureState) (h : i ≠ j) :
    alookup (settleAt futs j s) i = alookup futs i := by
  unfold settleAt
  cases hj : alookup futs j with
  | none => rfl
  | some fs => cases fs <;> simp [alookup_ainsert_ne _ _ _ _ h]

theorem alookup_settleAt_self (futs : List (Nat × FutureState)) (i : Nat)
    (s : FutureState) :
    alookup (settleAt futs i s) i =
      match alookup futs i with
      | some FutureState.pending => some s
      | o => o := by
  unfold settleAt
  cases h : alookup futs i with
  | none => simp [h]
  | some fs => cases fs <;> simp [h, alookup_ainsert_self]

theorem alookup_settleAllAt_not_mem (ids : List Nat) :
    ∀ (futs : List (Nat × FutureState)) (i : Nat) (s : FutureState), i ∉ ids →
      alookup (settleAllAt futs ids s) i = alookup futs i := by
  induction ids with
  | nil => intro futs i s _; rfl
  | cons j rest ih =>
      intro futs i s h
      have hij : i ≠ j := fun he => h (he ▸ List.mem_cons_self j rest)
      have hr : i ∉ rest := fun hm => h (List.mem_cons_of_mem j hm)
      calc alookup (settleAllAt (settleAt futs j s) rest s) i
          = alookup (settleAt futs j s) i := ih _ i s hr
        _ = alookup futs i := alookup_settleAt_ne futs j i s hij

theorem alookup_settleAllAt_mem (ids : List Nat) :
    ∀ (futs : List (Nat × FutureState)) (i : Nat) (s : FutureState),
      ids.Nodup → i ∈ ids →
      alookup (settleAllAt futs ids s) i =
        match alookup futs i with
        | some FutureState.pending => some s
        | o => o := by
  induction ids with
  | nil => intro futs i s _ h; cases h
  | cons j rest ih =>
      intro futs i s hnd h
      rcases List.nodup_cons.mp hnd with ⟨hj, hrest⟩
      by_cases hij : i = j
      · subst hij
        have hstep : settleAllAt futs (i :: rest) s
            = settleAllAt (settleAt futs i s) rest s := rfl
        rw [hstep, alookup_settleAllAt_not_mem rest _ i s hj,
          alookup_settleAt_self]
      · have hr : i ∈ rest := by
          rcases List.mem_cons.mp h with h' | h'
          · exact absurd h' hij
          · exact h'
        have hstep : settleAllAt futs (j :: rest) s
            = settleAllAt (settleAt futs j s) rest s := rfl
        rw [hstep, ih _ i s hrest hr, alookup_settleAt_ne futs j i s hij]

/-! ## Concrete clients used by witnesses and counterexamples -/

/-- A freshly constructed client (`__init__` state, `main.py` lines 75-103). -/
def baseClient : Client :=
  { session_open := false
    ws_open := false
    ws_task := false
    ws_id := 0
    pending := []
    futures := []
    event_callbacks := []
    gen_subs := []
    ws_connected := false
    reconnect_interval := 1
    ws_shutdown := false
    states_cache := []
    registry_cache := []
    device_cache := []
    area_cache := []
    service_cache := [] }

/-- A connected client with one in-flight request (id 1). -/
def cOnePending : Client :=
  { baseClient with
      session_open := true
      ws_open := true
      ws_task := true
      ws_connected := true
      ws_id := 1
      pending := [1]
      futures := [(1, FutureState.pending)] }

/-! ## Claims -/

/-- C1: for a WebSocket command that times out, the timeout branch of
`_send_websocket_command` removes the pending entry for its request id
together with the timeout firing, so a response frame arriving later with
that id is a no-op for `_handle_response`: it resolves no future and leaves
the pending-request map, the caches and the subscriber lists unchanged (the
entire client state is preserved). -/
theorem c1_timeout_then_late_response_noop (c : Client) (i : Nat)
    (hnd : c.pending.Nodup) (m : RespMsg) (hm : m.id = i) :
    i ∉ (timeoutFire c i).pending ∧
    handleResponse (timeoutFire c i) m = timeoutFire c i := by
  have hnp : i ∉ (timeoutFire c i).pending := not_mem_lerase_self hnd
  refine ⟨hnp, ?_⟩
  have hnm : m.id ∉ (timeoutFire c i).pending := hm ▸ hnp
  simp [handleResponse, hnm]

/-- Witness for C1: a connected client with request 1 pending, timing out and
then receiving a late response frame for id 1. -/
theorem c1_timeout_then_late_response_noop_witness :
    cOnePending.pending.Nodup ∧
    (1 ∉ (timeoutFire cOnePending 1).pending ∧
      handleResponse (timeoutFire cOnePending 1)
        { id := 1, success := some true, result := none, errorMessage := none }
        = timeoutFire cOnePending 1) :=
  ⟨by decide,
   c1_timeout_then_late_response_noop cOnePending 1 (by decide)
     { id := 1, success := some true, result := none, errorMessage := none } rfl⟩

/-- The pending-request-map invariant within one connection generation: ids
in the map are pairwise distinct and never exceed the `_ws_id` counter. -/
def Client.wsInv (c : Client) : Prop :=
  c.pending.Nodup ∧ ∀ i ∈ c.pending, i ≤ c.ws_id

/-- C2: within one connection generation, `_send_websocket_command` allocates
strictly increasing request ids (each newly allocated id exceeds every id
allocated before, in particular every id still pending), a given id maps to
at most one pending entry at a time (the invariant is preserved by every
operation on the map), and each entry is removed at most once — after any
removing step the id is gone, and a removal aimed at an id that is no longer
pending changes nothing. -/
theorem c2_request_id_discipline (c : Client) (h : c.wsInv) :
    (∀ c' i, sendRegister c = Except.ok (c', i) →
        i = c.ws_id + 1 ∧ i ∉ c.pending ∧ (∀ j ∈ c.pending, j < i) ∧ c'.wsInv) ∧
    (∀ i, (timeoutFire c i).wsInv ∧ i ∉ (timeoutFire c i).pending) ∧
    (∀ m : RespMsg, (handleResponse c m).wsInv ∧
        m.id ∉ (handleResponse c m).pending) ∧
    ((wsDisconnectCleanup c).wsInv ∧ (wsDisconnectCleanup c).pending = []) ∧
    ((disconnect c).wsInv ∧ (disconnect c).pending = []) ∧
    (∀ i, i ∉ c.pending → (timeoutFire c i).pending = c.pending) ∧
    (∀ m : RespMsg, m.id ∉ c.pending → handleResponse c m = c) := by
  obtain ⟨hnd, hle⟩ := h
  refine ⟨?_, ?_, ?_, ?_, ?_, ?_, ?_⟩
  · intro c' i heq
    simp only [sendRegister] at heq
    split at heq
    · exact absurd heq (by simp)
    · have hni : c.ws_id + 1 ∉ c.pending := by
        intro hmem
        have := hle _ hmem
        omega
      have hif : (if c.ws_id + 1 ∈ c.pending then c.pending
          else c.pending ++ [c.ws_id + 1]) = c.pending ++ [c.ws_id + 1] :=
        if_neg hni
      cases heq
      refine ⟨rfl, hni, ?_, ?_, ?_⟩
      · intro j hj
        exact Nat.lt_succ_of_le (hle j hj)
      · show (if c.ws_id + 1 ∈ c.pending then c.pending
            else c.pending ++ [c.ws_id + 1]).Nodup
        rw [hif, ← List.concat_eq_append]
        exact hnd.concat hni
      · intro j hj
        show j ≤ c.ws_id + 1
        have hj' : j ∈ c.pending ++ [c.ws_id + 1] := hif ▸ hj
        rcases List.mem_append.mp hj' with hj2 | hj2
        · exact Nat.le_succ_of_le (hle j hj2)
        · simp at hj2
          omega
  · intro i
    refine ⟨⟨nodup_lerase hnd, ?_⟩, not_mem_lerase_self hnd⟩
    intro j hj
    exact hle j (mem_of_mem_lerase hj)
  · intro m
    by_cases hm : m.id ∈ c.pending
    · have hr : handleResponse c m =
          { c with
              pending := lerase c.pending m.id
              futures := settleFromMsg c.futures m } := by
        simp [handleResponse, hm]
      rw [hr]
      exact ⟨⟨nodup_lerase hnd, fun j hj => hle j (mem_of_mem_lerase hj)⟩,
        not_mem_lerase_self hnd⟩
    · have hr : handleResponse c m = c := by simp [handleResponse, hm]
      rw [hr]
      exact ⟨⟨hnd, hle⟩, hm⟩
  · exact ⟨⟨List.nodup_nil, by simp [wsDisconnectCleanup]⟩, rfl⟩
  · exact ⟨⟨List.nodup_nil, by simp [disconnect]⟩, rfl⟩
  · intro i hni
    exact lerase_of_not_mem hni
  · intro m hnm
    simp [handleResponse, hnm]

/-- A connected client with two in-flight requests (ids 1 and 2). -/
def cTwoPending : Client :=
  { baseClient with
      session_open := true
      ws_open := true
      ws_task := true
      ws_connected := true
      ws_id := 2
      pending := [1, 2]
      futures := [(1, FutureState.pending), (2, FutureState.pending)] }

/-- Witness for C2: the invariant holds for a concrete connected client with
requests 1 and 2 pending, and firing the timeout for request 1 preserves it
and deregisters id 1. -/
theorem c2_request_id_discipline_witness :
    Client.wsInv cTwoPending ∧
    ((timeoutFire cTwoPending 1).wsInv ∧ 1 ∉ (timeoutFire cTwoPending 1).pending) :=
  ⟨⟨by decide, by decide⟩,
   (c2_request_id_discipline cTwoPending ⟨by decide, by decide⟩).2.1 1⟩

/-- Whether a settled future was rejected with a connection-category error
(`ConnectionError`), which is what the claim says `disconnect` does to
pending requests. -/
def FutureState.isConnReject : FutureState → Bool
  | FutureState.rejectedConn _ => true
  | _ => false

/-- A connected client with exactly one in-flight request (id 1), used to
refute C3 as stated. -/
def cPendingDisc : Client :=
  { baseClient with
      session_open := true
      ws_open := true
      ws_task := true
      ws_connected := true
      ws_id := 1
      pending := [1]
      futures := [(1, FutureState.pending)] }

/-- Counterexample for C3 as stated: request 1 is still pending (entry in the
map, future unsettled) when `disconnect` is called, and `disconnect` settles
it by `future.cancel()` (`main.py` lines 179-181) — afterwards the future is
cancelled, not rejected with a connection error, so the claim's "rejected
with a connection error" fails at this concrete input (the map is
nevertheless cleared). -/
theorem c3_disconnect_cex :
    1 ∈ cPendingDisc.pending ∧
    alookup cPendingDisc.futures 1 = some FutureState.pending ∧
    alookup (disconnect cPendingDisc).futures 1 = some FutureState.cancelled ∧
    Option.map FutureState.isConnReject
        (alookup (disconnect cPendingDisc).futures 1) = some false ∧
    (disconnect cPendingDisc).pending = [] := by
  decide

/-- C3 (amended): `disconnect()` is idempotent and clears the pending-request
map before returning, and every still-pending future is settled — but by
cancellation (`future.cancel()`, so the awaiting caller observes
`asyncio.CancelledError`), not by rejection with a connection error; no
future belonging to a pending entry survives in an unsettled state. -/
theorem c3_disconnect_idempotent_cancels (c : Client) (hnd : c.pending.Nodup) :
    disconnect (disconnect c) = disconnect c ∧
    (disconnect c).pending = [] ∧
    (∀ i ∈ c.pending, alookup c.futures i = some FutureState.pending →
        alookup (disconnect c).futures i = some FutureState.cancelled) ∧
    (∀ i ∈ c.pending, ∀ fs, alookup (disconnect c).futures i = some fs →
        fs.isDone = true) := by
  have hfd : (disconnect c).futures
      = settleAllAt c.futures c.pending FutureState.cancelled := rfl
  refine ⟨rfl, rfl, ?_, ?_⟩
  · intro i hi hp
    rw [hfd, alookup_settleAllAt_mem c.pending c.futures i
      FutureState.cancelled hnd hi, hp]
  · intro i hi fs hfs
    rw [hfd, alookup_settleAllAt_mem c.pending c.futures i
      FutureState.cancelled hnd hi] at hfs
    cases horig : alookup c.futures i with
    | none => rw [horig] at hfs; cases hfs
    | some fs0 =>
        rw [horig] at hfs
        cases fs0 with
        | pending => cases hfs; rfl
        | resolved r => cases hfs; rfl
        | rejectedWS s => cases hfs; rfl
        | rejectedConn s => cases hfs; rfl
        | cancelled => cases hfs; rfl

/-- Witness for C3 (amended) at the concrete client with request 1 pending. -/
theorem c3_disconnect_idempotent_cancels_witness :
    cPendingDisc.pending.Nodup ∧
    disconnect (disconnect cPendingDisc) = disconnect cPendingDisc ∧
    alookup (disconnect cPendingDisc).futures 1 = some FutureState.cancelled :=
  ⟨by decide,
   (c3_disconnect_idempotent_cancels cPendingDisc (by decide)).1,
   (c3_disconnect_idempotent_cancels cPendingDisc (by decide)).2.2.1 1
     (by decide) (by decide)⟩

/-- C4: `connect()` is a total function into `Bool × Client` (ordinary auth
and network failures are caught and answered with `False`); in particular,
when the server answers the auth handshake with `auth_invalid`, `connect()`
returns `false`, no background read-loop task is running, and every cache
(states, entity/device/area registries, services) remains empty. -/
theorem c4_connect_auth_invalid (c : Client) (s : ConnectScript)
    (msg : Option String) (hh : s.handshake = Handshake.authInvalid msg)
    (hstates : c.states_cache = []) (hreg : c.registry_cache = [])
    (hdev : c.device_cache = []) (harea : c.area_cache = [])
    (hsvc : c.service_cache = []) :
    (connect c s).1 = false ∧
    (connect c s).2.ws_task = false ∧
    (connect c s).2.states_cache = [] ∧
    (connect c s).2.registry_cache = [] ∧
    (connect c s).2.device_cache = [] ∧
    (connect c s).2.area_cache = [] ∧
    (connect c s).2.service_cache = [] := by
  have hsess : (ensureSession c).session_open = true := by
    unfold ensureSession
    by_cases hopen : c.session_open <;> simp [hopen]
  have e1 : (ensureSession c).states_cache = c.states_cache := by
    unfold ensureSession
    by_cases hopen : c.session_open <;> simp [hopen]
  have e2 : (ensureSession c).registry_cache = c.registry_cache := by
    unfold ensureSession
    by_cases hopen : c.session_open <;> simp [hopen]
  have e3 : (ensureSession c).device_cache = c.device_cache := by
    unfold ensureSession
    by_cases hopen : c.session_open <;> simp [hopen]
  have e4 : (ensureSession c).area_cache = c.area_cache := by
    unfold ensureSession
    by_cases hopen : c.session_open <;> simp [hopen]
  have e5 : (ensureSession c).service_cache = c.service_cache := by
    unfold ensureSession
    by_cases hopen : c.session_open <;> simp [hopen]
  unfold connect
  cases hapi : api_call (ensureSession c).session_open "/api/" s.probe with
  | error e =>
      simp only [hapi]
      exact ⟨trivial, rfl, e1.trans hstates, e2.trans hreg, e3.trans hdev,
        e4.trans harea, e5.trans hsvc⟩
  | ok j =>
      have hws : connectWebsocket (ensureSession c) s.handshake
          = Except.error
              (HAErr.authentication ("认证失败: " ++ msg.getD "Unknown error"),
               { ensureSession c with ws_open := true }) := by
        rw [hh]
        simp [connectWebsocket, hsess]
      simp only [hapi, hws]
      exact ⟨trivial, rfl, e1.trans hstates, e2.trans hreg, e3.trans hdev,
        e4.trans harea, e5.trans hsvc⟩

/-- Witness for C4: a fresh client whose REST probe succeeds and whose
handshake is answered with `auth_invalid`. -/
theorem c4_connect_auth_invalid_witness :
    (connect baseClient
      { probe := RestOutcome.response 200 "" JVal.null
        handshake := Handshake.authInvalid (some "Invalid token") }).1 = false ∧
    (connect baseClient
      { probe := RestOutcome.response 200 "" JVal.null
        handshake := Handshake.authInvalid (some "Invalid token") }).2.ws_task
      = false :=
  ⟨(c4_connect_auth_invalid baseClient
      { probe := RestOutcome.response 200 "" JVal.null
        handshake := Handshake.authInvalid (some "Invalid token") }
      (some "Invalid token") rfl rfl rfl rfl rfl rfl).1,
   (c4_connect_auth_invalid baseClient
      { probe := RestOutcome.response 200 "" JVal.null
        handshake := Handshake.authInvalid (some "Invalid token") }
      (some "Invalid token") rfl rfl rfl rfl rfl rfl).2.1⟩

/-- A stale registry item cached before a fetch. -/
def itemOld : EntityItem := { entity_id := "light.old", payload := JVal.null }

/-- The single item of a fresh registry snapshot. -/
def itemNew : EntityItem := { entity_id := "light.new", payload := JVal.null }

/-- A client whose entity-registry cache holds a stale entry that the next
snapshot no longer contains. -/
def cStaleReg : Client :=
  { baseClient with registry_cache := [("light.old", itemOld)] }

/-- Counterexample for C5 as stated: fetching a snapshot that does not
contain `light.old` leaves the stale `light.old` entry in the cache (the loop
at `main.py` lines 663-694 only inserts, it never clears), and the value
returned by `get_entity_registry` is the whole cache including the stale
entry, not the snapshot. -/
theorem c5_registry_replace_cex :
    alookup (get_entity_registry cStaleReg [itemNew]).1.registry_cache
        "light.old" = some itemOld ∧
    alookup (get_entity_registry cStaleReg [itemNew]).2 "light.old"
      = some itemOld := by
  decide

/-- C5 (amended): each registry/service fetch upserts the fetched snapshot
into its cache section — a key occurring in the snapshot ends up mapped to
the last fetched item with that key, while cache entries whose keys are
absent from the snapshot are retained unchanged (merge, not replace).  The
returned value is the updated whole cache mapping for `get_entity_registry`
and `get_area_registry`, and the freshly built snapshot list for
`get_device_registry` and `get_services`. -/
theorem c5_fetch_merges_cache (c : Client) (rawE : List EntityItem)
    (rawA : List AreaItem) (rawD : List RawDevice) (rawS : List RawDomain)
    (k : String) :
    (lastVal EntityItem.entity_id id rawE k = none →
        alookup (get_entity_registry c rawE).1.registry_cache k
          = alookup c.registry_cache k) ∧
    (∀ it, lastVal EntityItem.entity_id id rawE k = some it →
        alookup (get_entity_registry c rawE).1.registry_cache k = some it) ∧
    (get_entity_registry c rawE).2
      = (get_entity_registry c rawE).1.registry_cache ∧
    (lastVal AreaItem.area_id id rawA k = none →
        alookup (get_area_registry c rawA).1.area_cache k
          = alookup c.area_cache k) ∧
    (∀ it, lastVal AreaItem.area_id id rawA k = some it →
        alookup (get_area_registry c rawA).1.area_cache k = some it) ∧
    (get_area_registry c rawA).2 = (get_area_registry c rawA).1.area_cache ∧
    (lastVal DeviceRegistry.id id (rawD.map parseDevice) k = none →
        alookup (get_device_registry c rawD).1.device_cache k
          = alookup c.device_cache k) ∧
    (∀ dv, lastVal DeviceRegistry.id id (rawD.map parseDevice) k = some dv →
        alookup (get_device_registry c rawD).1.device_cache k = some dv) ∧
    (get_device_registry c rawD).2 = rawD.map parseDevice ∧
    (lastVal Service.service_id id (servicesOf rawS) k = none →
        alookup (get_services c rawS).1.service_cache k
          = alookup c.service_cache k) ∧
    (∀ sv, lastVal Service.service_id id (servicesOf rawS) k = some sv →
        alookup (get_services c rawS).1.service_cache k = some sv) ∧
    (get_services c rawS).2 = servicesOf rawS := by
  have hE := alookup_upsertAll EntityItem.entity_id id rawE c.registry_cache k
  have hA := alookup_upsertAll AreaItem.area_id id rawA c.area_cache k
  have hD := alookup_upsertAll DeviceRegistry.id id (rawD.map parseDevice)
    c.device_cache k
  have hS := alookup_upsertAll Service.service_id id (servicesOf rawS)
    c.service_cache k
  refine ⟨?_, ?_, rfl, ?_, ?_, rfl, ?_, ?_, rfl, ?_, ?_, rfl⟩
  · intro h0; rw [h0] at hE; exact hE
  · intro it hit; rw [hit] at hE; exact hE
  · intro h0; rw [h0] at hA; exact hA
  · intro it hit; rw [hit] at hA; exact hA
  · intro h0; rw [h0] at hD; exact hD
  · intro dv hdv; rw [hdv] at hD; exact hD
  · intro h0; rw [h0] at hS; exact hS
  · intro sv hsv; rw [hsv] at hS; exact hS

/-- Witness for C5 (amended): the stale key `light.old` is absent from the
snapshot `[itemNew]` and its cache entry is retained unchanged. -/
theorem c5_fetch_merges_cache_witness :
    lastVal EntityItem.entity_id id [itemNew] "light.old" = none ∧
    alookup (get_entity_registry cStaleReg [itemNew]).1.registry_cache
        "light.old" = alookup cStaleReg.registry_cache "light.old" :=
  ⟨by decide,
   (c5_fetch_merges_cache cStaleReg [itemNew] [] [] [] "light.old").1
     (by decide)⟩

/-- A connected client that, in its current generation, has subscribed to
both `state_changed` and `call_service` and holds a callback for each. -/
def cSubs : Client :=
  { baseClient with
      session_open := true
      ws_open := true
      ws_task := true
      ws_connected := true
      ws_id := 7
      gen_subs := ["state_changed", "call_service"]
      event_callbacks := [("state_changed", [1]), ("call_service", [2])] }

/-- Counterexample for C6 as stated: `call_service` was actively subscribed
before the disconnect, yet after the successful reconnect the only
`subscribe_events` command sent in the new generation is for
`state_changed` (`main.py` line 285) — `call_service` is not re-subscribed. -/
theorem c6_resubscribe_cex :
    "call_service" ∈ cSubs.gen_subs ∧
    (reconnectOnce cSubs).gen_subs = ["state_changed"] ∧
    "call_service" ∉ (reconnectOnce cSubs).gen_subs := by
  decide

/-- C6 (amended): after an unexpected disconnect followed by a reconnect
reported successful, exactly one event type has been re-subscribed on the
wire — `state_changed` — regardless of which event types were active before;
callbacks registered for other event types remain in the local registry but
no `subscribe_events` command is re-sent for them. -/
theorem c6_reconnect_resubscribes_only_state_changed (c : Client)
    (hsd : c.ws_shutdown = false) (hsess : c.session_open = true) :
    (reconnectOnce c).gen_subs = ["state_changed"] ∧
    (reconnectOnce c).event_callbacks = c.event_callbacks := by
  simp [reconnectOnce, wsDisconnectCleanup, connectWebsocket, postAuth,
    subscribeStateChanged, sendRegister, handleResponse, settleFromMsg,
    lerase, hsd, hsess]

/-- Witness for C6 (amended) at the concrete doubly subscribed client. -/
theorem c6_reconnect_resubscribes_only_state_changed_witness :
    cSubs.ws_shutdown = false ∧
    (reconnectOnce cSubs).event_callbacks = cSubs.event_callbacks :=
  ⟨rfl,
   (c6_reconnect_resubscribes_only_state_changed cSubs rfl rfl).2⟩

theorem Heap.get_set_ne (h : Heap) (r : Nat) (d : HDict) (r' : Nat)
    (hne : r' ≠ r) : (h.set r d).get r' = h.get r' := by
  simp [Heap.get, Heap.set, alookup_ainsert_ne _ _ _ _ hne]

theorem Heap.get_alloc_self (h : Heap) (d : HDict) :
    (h.alloc d).1.get h.next = d := by
  simp [Heap.get, Heap.alloc, alookup_ainsert_self]

theorem Heap.get_alloc_ne (h : Heap) (d : HDict) (r' : Nat)
    (hne : r' ≠ h.next) : (h.alloc d).1.get r' = h.get r' := by
  simp [Heap.get, Heap.alloc, alookup_ainsert_ne _ _ _ _ hne]

/-- What `dict.copy()` guarantees: the handed-out reference is the freshly
allocated one, it holds the same entries as the source object, and mutating
it afterwards leaves every previously allocated object untouched. -/
theorem copy_frame (c : ClientRefs) (r : Nat) (k : String) (v : JVal) :
    (copyDict c r).2 = c.heap.next ∧
    Heap.get (copyDict c r).1.heap (copyDict c r).2 = Heap.get c.heap r ∧
    ∀ q, q < c.heap.next →
      Heap.get (mutateInsert (copyDict c r).1 (copyDict c r).2 k v).heap q
        = Heap.get c.heap q := by
  refine ⟨rfl, Heap.get_alloc_self c.heap _, ?_⟩
  intro q hq
  have hne : q ≠ c.heap.next := by omega
  calc Heap.get (mutateInsert (copyDict c r).1 (copyDict c r).2 k v).heap q
      = Heap.get (copyDict c r).1.heap q := Heap.get_set_ne _ _ _ q hne
    _ = Heap.get c.heap q := Heap.get_alloc_ne c.heap _ q hne

/-- A concrete heap with five distinct cache objects; the registry cache
(reference 0) holds one entry. -/
def heap7 : Heap :=
  { objs := [(0, [("light.a", JVal.str "on")]), (1, []), (2, []), (3, []),
      (4, [])]
    next := 5 }

/-- A client whose five caches live at references 0-4 of `heap7`. -/
def cRefs7 : ClientRefs :=
  { heap := heap7
    states_ref := 1
    registry_ref := 0
    device_ref := 2
    area_ref := 3
    service_ref := 4 }

/-- Counterexample for C7 as stated: `get_entity_registry` returns the
internal cache dict itself (`return self._registry_cache`, `main.py` line
697), so inserting a key into the returned dict changes the client's cache
contents. -/
theorem c7_defensive_copy_cex :
    (get_entity_registry_ref cRefs7 []).2 = cRefs7.registry_ref ∧
    cachedRegistryH
        (mutateInsert (get_entity_registry_ref cRefs7 []).1
          (get_entity_registry_ref cRefs7 []).2 "hacked" JVal.null)
      ≠ cachedRegistryH (get_entity_registry_ref cRefs7 []).1 := by
  decide

/-- C7 (amended): only the `get_cached_*` family returns defensive (shallow,
top-level) copies: each hands out a freshly allocated dict holding the cache
contents, and mutating it leaves every pre-existing object — in particular
all five caches — unchanged.  By contrast, `get_entity_registry` and
`get_area_registry` return the internal cache object itself, and the
cache-serving path of `get_state` returns the stored value itself, so those
results alias the cache. -/
theorem c7_cache_reads_copies_and_aliases (c : ClientRefs) (k : String)
    (v : JVal) (rawE : List EntityItem) (rawA : List AreaItem) (e : String) :
    ((get_cached_states_ref c).2 = c.heap.next ∧
      Heap.get (get_cached_states_ref c).1.heap (get_cached_states_ref c).2
        = cachedStatesH c ∧
      ∀ q, q < c.heap.next →
        Heap.get (mutateInsert (get_cached_states_ref c).1
          (get_cached_states_ref c).2 k v).heap q = Heap.get c.heap q) ∧
    ((get_cached_registry_ref c).2 = c.heap.next ∧
      Heap.get (get_cached_registry_ref c).1.heap (get_cached_registry_ref c).2
        = cachedRegistryH c ∧
      ∀ q, q < c.heap.next →
        Heap.get (mutateInsert (get_cached_registry_ref c).1
          (get_cached_registry_ref c).2 k v).heap q = Heap.get c.heap q) ∧
    ((get_cached_devices_ref c).2 = c.heap.next ∧
      Heap.get (get_cached_devices_ref c).1.heap (get_cached_devices_ref c).2
        = cachedDevicesH c ∧
      ∀ q, q < c.heap.next →
        Heap.get (mutateInsert (get_cached_devices_ref c).1
          (get_cached_devices_ref c).2 k v).heap q = Heap.get c.heap q) ∧
    ((get_cached_areas_ref c).2 = c.heap.next ∧
      Heap.get (get_cached_areas_ref c).1.heap (get_cached_areas_ref c).2
        = cachedAreasH c ∧
      ∀ q, q < c.heap.next →
        Heap.get (mutateInsert (get_cached_areas_ref c).1
          (get_cached_areas_ref c).2 k v).heap q = Heap.get c.heap q) ∧
    ((get_cached_services_ref c).2 = c.heap.next ∧
      Heap.get (get_cached_services_ref c).1.heap (get_cached_services_ref c).2
        = cachedServicesH c ∧
      ∀ q, q < c.heap.next →
        Heap.get (mutateInsert (get_cached_services_ref c).1
          (get_cached_services_ref c).2 k v).heap q = Heap.get c.heap q) ∧
    (get_entity_registry_ref c rawE).2 = c.registry_ref ∧
    (get_area_registry_ref c rawA).2 = c.area_ref ∧
    get_state_cache_hit c e = alookup (cachedStatesH c) e :=
  ⟨copy_frame c c.states_ref k v, copy_frame c c.registry_ref k v,
   copy_frame c c.device_ref k v, copy_frame c c.area_ref k v,
   copy_frame c c.service_ref k v, rfl, rfl, rfl⟩

/-- Witness for C7 (amended) at the concrete heap: the states-cache copy is
the fresh object 5, and mutating it leaves the registry cache (object 0)
unchanged. -/
theorem c7_cache_reads_copies_and_aliases_witness :
    (get_cached_states_ref cRefs7).2 = cRefs7.heap.next ∧
    (0 < cRefs7.heap.next ∧
      Heap.get (mutateInsert (get_cached_states_ref cRefs7).1
        (get_cached_states_ref cRefs7).2 "hacked" JVal.null).heap 0
        = Heap.get cRefs7.heap 0) :=
  ⟨(c7_cache_reads_copies_and_aliases cRefs7 "hacked" JVal.null [] []
      "light.a").1.1,
   by decide,
   (c7_cache_reads_copies_and_aliases cRefs7 "hacked" JVal.null [] []
      "light.a").1.2.2 0 (by decide)⟩

/-- C8: processing a `state_changed` frame that carries a `new_state` payload
stores the parsed payload in the states cache under the frame's entity id;
`get_state` for that entity immediately afterwards serves exactly that
`EntityState` from the cache without any REST fetch, and every one of its
fields (entity id, state, attributes, both timestamps, and the context
triple) is identical to the event's new-state payload. -/
theorem c8_state_changed_then_get_state (c : Client) (m : EventMsg)
    (d : StateChangedData) (p : StatePayload) (fetch : FetchStates)
    (hm : m.payload = EventPayload.stateChanged d)
    (hp : d.new_state = some p) :
    alookup (handle_event c m).states_cache d.entity_id
      = some (parseEntityState p) ∧
    get_state (handle_event c m) d.entity_id fetch
      = (Except.ok (some (parseEntityState p)), handle_event c m, false) ∧
    (parseEntityState p).entity_id = p.entity_id ∧
    (parseEntityState p).state = p.state ∧
    (parseEntityState p).attributes = p.attributes ∧
    (parseEntityState p).last_changed = p.last_changed ∧
    (parseEntityState p).last_updated = p.last_updated ∧
    (parseEntityState p).context_id = p.context_id ∧
    (parseEntityState p).context_parent_id = p.context_parent_id ∧
    (parseEntityState p).context_user_id = p.context_user_id := by
  have hl : alookup (handle_event c m).states_cache d.entity_id
      = some (parseEntityState p) := by
    have he : handle_event c m =
        { c with states_cache :=
            ainsert c.states_cache d.entity_id (parseEntityState p) } := by
      simp [handle_event, hm, hp]
    rw [he]
    exact alookup_ainsert_self _ _ _
  refine ⟨hl, ?_, rfl, rfl, rfl, rfl, rfl, rfl, rfl, rfl⟩
  simp [get_state, hl]

/-- A `state_changed` payload turning `light.test` on. -/
def pOn : StatePayload :=
  { entity_id := "light.test"
    state := JVal.str "on"
    attributes := [("friendly_name", JVal.str "Test")]
    last_changed := "2024-01-01T00:00:00+00:00"
    last_updated := "2024-01-01T00:00:00+00:00"
    context_id := "ctx1"
    context_parent_id := none
    context_user_id := none }

/-- The `state_changed` event frame carrying `pOn` as the new state. -/
def evOn : EventMsg :=
  { payload := EventPayload.stateChanged
      { entity_id := "light.test", old_state := none, new_state := some pOn }
    event_id := JVal.num 1
    time_fired := "2024-01-01T00:00:00+00:00" }

/-- Witness for C8 at the concrete event `evOn` against a fresh client. -/
theorem c8_state_changed_then_get_state_witness :
    alookup (handle_event baseClient evOn).states_cache "light.test"
      = some (parseEntityState pOn) ∧
    get_state (handle_event baseClient evOn) "light.test"
        (FetchStates.item none)
      = (Except.ok (some (parseEntityState pOn)), handle_event baseClient evOn,
         false) :=
  ⟨(c8_state_changed_then_get_state baseClient evOn
      { entity_id := "light.test", old_state := none, new_state := some pOn }
      pOn (FetchStates.item none) rfl rfl).1,
   (c8_state_changed_then_get_state baseClient evOn
      { entity_id := "light.test", old_state := none, new_state := some pOn }
      pOn (FetchStates.item none) rfl rfl).2.1⟩

/-- C9: `_api_call` maps an HTTP 401 response to `AuthenticationError`, any
other status ≥ 400 to `RequestError` carrying the status code and response
body, a timeout or socket failure to `ConnectionError`, an HTTP 204 response
to an empty success value, and any remaining response to its parsed JSON
body (with a closed session refused up front as `ConnectionError`). -/
theorem c9_api_call_error_mapping (url : String) :
    (∀ body j, api_call true url (RestOutcome.response 401 body j)
        = Except.error (HAErr.authentication "认证失败")) ∧
    (∀ status body j, 400 ≤ status → status ≠ 401 →
        api_call true url (RestOutcome.response status body j)
          = Except.error (HAErr.request status body)) ∧
    (∀ body j, api_call true url (RestOutcome.response 204 body j)
        = Except.ok none) ∧
    (∀ status body j, status < 400 → status ≠ 204 →
        api_call true url (RestOutcome.response status body j)
          = Except.ok (some j)) ∧
    api_call true url RestOutcome.timeoutExpired
      = Except.error (HAErr.connection ("请求超时: " ++ url)) ∧
    (∀ msg, api_call true url (RestOutcome.clientFailure msg)
        = Except.error (HAErr.connection ("请求错误: " ++ msg))) ∧
    (∀ o, api_call false url o
        = Except.error (HAErr.connection "未连接到 Home Assistant")) := by
  refine ⟨?_, ?_, ?_, ?_, ?_, ?_, ?_⟩
  · intro body j
    simp [api_call]
  · intro status body j h4 hne
    simp [api_call, hne, h4]
  · intro body j
    simp [api_call]
  · intro status body j hlt hne
    have h1 : status ≠ 401 := by omega
    have h2 : ¬ 400 ≤ status := by omega
    simp [api_call, h1, h2, hne]
  · simp [api_call]
  · intro msg
    simp [api_call]
  · intro o
    simp [api_call]

/-- Witness for C9: a 404 with a body maps to `RequestError 404`, and a 200
response returns its parsed JSON body. -/
theorem c9_api_call_error_mapping_witness :
    ((400 : Nat) ≤ 404 ∧ (404 : Nat) ≠ 401 ∧
      api_call true "u" (RestOutcome.response 404 "not found" JVal.null)
        = Except.error (HAErr.request 404 "not found")) ∧
    ((200 : Nat) < 400 ∧ (200 : Nat) ≠ 204 ∧
      api_call true "u" (RestOutcome.response 200 "ok" (JVal.str "ok"))
        = Except.ok (some (JVal.str "ok"))) :=
  ⟨⟨by decide, by decide,
    (c9_api_call_error_mapping "u").2.1 404 "not found" JVal.null
      (by decide) (by decide)⟩,
   ⟨by decide, by decide,
    (c9_api_call_error_mapping "u").2.2.2.1 200 "ok" (JVal.str "ok")
      (by decide) (by decide)⟩⟩

/-- C10: for an entity already present in the states cache, `get_state`
returns the cached entry with no network access, however stale it may be;
and a `state_changed` frame whose `new_state` payload is absent (entity
removed) leaves the whole client — in particular the cache entry for that
entity — unchanged, so the pre-removal state keeps being served by
`get_state` and keeps appearing in `get_cached_states`. -/
theorem c10_cache_hit_and_removal_retention (c : Client) (e : String)
    (st : EntityState) (fetch : FetchStates) (m : EventMsg)
    (d : StateChangedData)
    (hcache : alookup c.states_cache e = some st)
    (hm : m.payload = EventPayload.stateChanged d)
    (_hd : d.entity_id = e) (hn : d.new_state = none) :
    get_state c e fetch = (Except.ok (some st), c, false) ∧
    handle_event c m = c ∧
    alookup (handle_event c m).states_cache e = some st ∧
    alookup (get_cached_states (handle_event c m)) e = some st := by
  have he : handle_event c m = c := by simp [handle_event, hm, hn]
  refine ⟨?_, he, ?_, ?_⟩
  · simp [get_state, hcache]
  · rw [he]
    exact hcache
  · rw [he]
    exact hcache

/-- A client whose states cache already holds `light.test`. -/
def cCached : Client :=
  { baseClient with states_cache := [("light.test", parseEntityState pOn)] }

/-- A `state_changed` frame for `light.test` with the new-state payload
absent (entity removed). -/
def evRemoved : EventMsg :=
  { payload := EventPayload.stateChanged
      { entity_id := "light.test", old_state := some pOn, new_state := none }
    event_id := JVal.num 2
    time_fired := "2024-01-02T00:00:00+00:00" }

/-- Witness for C10 at the concrete cached client and removal event. -/
theorem c10_cache_hit_and_removal_retention_witness :
    alookup cCached.states_cache "light.test" = some (parseEntityState pOn) ∧
    get_state cCached "light.test" (FetchStates.item none)
      = (Except.ok (some (parseEntityState pOn)), cCached, false) ∧
    handle_event cCached evRemoved = cCached :=
  ⟨rfl,
   (c10_cache_hit_and_removal_retention cCached "light.test"
      (parseEntityState pOn) (FetchStates.item none) evRemoved
      { entity_id := "light.test", old_state := some pOn, new_state := none }
      rfl rfl rfl rfl).1,
   (c10_cache_hit_and_removal_retention cCached "light.test"
      (parseEntityState pOn) (FetchStates.item none) evRemoved
      { entity_id := "light.test", old_state := some pOn, new_state := none }
      rfl rfl rfl rfl).2.1⟩

end HA
